import Mathlib

/-!
Verification of the unlock-code / premium-token backend.

The repository contains several overlapping revisions of the same two
Express routers:

* `routes/api.js` (the revision mounted by `index.js`): `verify_key` with no
  format validation, a read-then-write redemption, a fixed 5-minute token
  expiry, and a `check_token` that filters by `expires_at > NOW()` in SQL;
* `part_004`: `verify_key` with the legacy `vsm-XXXXXXX-(5min|1day|1month)`
  format, auto-creation of unknown keys, token expiry computed from the
  stored `premium_duration_seconds`;
* `part_005` (newest): `verify_key` with the `vsm-XXXXXXXX-XXXX` format,
  auto-creation of unknown keys, token expiry computed from the
  `KEY_DURATIONS` mapping of the stored `duration_type`, and a
  duration-reclassification ladder that reassigns a `const` binding;
* `routes/admin.js`: `generate_key` with `expires_at = now + durationMinutes`
  and a `PUT /admin/keys/:id/toggle` endpoint flipping `used`;
* `part_003`: `generate_key` with `key_expires_at = now + 30 days`.

Each handler is embedded as a pure function over an explicit store; time is
an integer count of milliseconds, randomness (key candidates, token strings)
is passed in as parameters.
-/

/-- A row of the `unlock_keys` table.  The schema carries both the legacy
columns (`expires_at`, `duration_minutes`) and the new ones
(`key_expires_at`, `premium_duration_seconds`, `duration_type`), as in the
migration scripts of the repository.  Timestamps are milliseconds. -/
structure KeyRow where
  id : Nat
  unlock_key : String
  expires_at : Int
  key_expires_at : Int
  premium_duration_seconds : Int
  duration_minutes : Int
  duration_type : String
  used : Bool
  redeemed_by : Option String
  redeemed_at : Option Int
deriving Repr, DecidableEq

/-- A row of the `user_tokens` table. -/
structure TokenRow where
  token : String
  user_id : String
  expires_at : Int
  duration_type : Option String
deriving Repr, DecidableEq

/-- The persistent store: the two tables the backend uses. -/
structure Store where
  keys : List KeyRow
  tokens : List TokenRow
deriving Repr, DecidableEq

/-- `SELECT ... FROM unlock_keys WHERE unlock_key = $1`. -/
def findKey (s : Store) (k : String) : Option KeyRow :=
  s.keys.find? (fun r => r.unlock_key == k)

/-- Does a row with this `unlock_key` exist (the collision check of the
generator)? -/
def keyExists (s : Store) (k : String) : Bool :=
  (findKey s k).isSome

/-- `SELECT used FROM unlock_keys WHERE id = $1`. -/
def findKeyById (s : Store) (id : Nat) : Option KeyRow :=
  s.keys.find? (fun r => r.id == id)

/-- `SELECT ... FROM user_tokens WHERE token = $1`. -/
def findToken (s : Store) (t : String) : Option TokenRow :=
  s.tokens.find? (fun r => r.token == t)

/-- `[A-Z0-9]`: the constrained alphabet of the key formats
(the constant string of uppercase letters and digits named `chars`). -/
def isKeyChar (c : Char) : Bool := c.isUpper || c.isDigit

/-- The part_005 regex `^vsm-[A-Z0-9]\x7b8\x7d-[A-Z0-9]\x7b4\x7d$`. -/
def matchesNewFormat (key : String) : Bool :=
  let cs := key.toList
  cs.length == 17 &&
  cs.take 4 == ['v', 's', 'm', '-'] &&
  ((cs.drop 4).take 8).all isKeyChar &&
  (cs.drop 12).take 1 == ['-'] &&
  (cs.drop 13).all isKeyChar

/-- The part_005 legacy-format regex
`^vsm-[A-Z0-9]\x7b8\x7d-(5min|1day|1week|2weeks|1month)$`. -/
def matchesLegacyFormat (key : String) : Bool :=
  let cs := key.toList
  cs.take 4 == ['v', 's', 'm', '-'] &&
  ((cs.drop 4).take 8).all isKeyChar &&
  (cs.drop 12).take 1 == ['-'] &&
  (["5min", "1day", "1week", "2weeks", "1month"].any
    (fun sfx => cs.drop 13 == sfx.toList))

/-- part_005 `validateKeyFormat`: reject the legacy format, accept only
`vsm-XXXXXXXX-XXXX`. -/
def validateKeyFormat (key : String) : Bool :=
  if matchesLegacyFormat key then false else matchesNewFormat key

/-- part_004 `validateKeyFormat`: the regex
`^vsm-[A-Z0-9]\x7b7\x7d-(5min|1day|1month)$`. -/
def validateKeyFormatV4 (key : String) : Bool :=
  let cs := key.toList
  cs.take 4 == ['v', 's', 'm', '-'] &&
  ((cs.drop 4).take 7).all isKeyChar &&
  ((cs.drop 4).take 7).length == 7 &&
  (cs.drop 11).take 1 == ['-'] &&
  (["5min", "1day", "1month"].any (fun sfx => cs.drop 12 == sfx.toList))

/-- part_005 `KEY_DURATIONS` (durations in milliseconds). -/
def keyDurationMs : String → Option Int
  | "5min" => some 300000
  | "1day" => some 86400000
  | "1week" => some 604800000
  | "2weeks" => some 1209600000
  | "1month" => some 2592000000
  | _ => none

/-- part_004 / part_003 `KEY_DURATIONS` (only three entries). -/
def keyDurationMsV4 : String → Option Int
  | "5min" => some 300000
  | "1day" => some 86400000
  | "1month" => some 2592000000
  | _ => none

/-- part_005 `getDurationInfo`: fall back to the 5-minute entry. -/
def getDurationMs (dt : String) : Int := (keyDurationMs dt).getD 300000

/-- `String.split` on the dash character, over character lists. -/
def splitOnDashAux : List Char → List Char → List (List Char)
  | [], acc => [acc.reverse]
  | c :: rest, acc =>
    if c == '-' then acc.reverse :: splitOnDashAux rest []
    else splitOnDashAux rest (c :: acc)

/-- `key.split('-')`. -/
def splitOnDash (cs : List Char) : List (List Char) := splitOnDashAux cs []

/-- part_004 `extractDurationFromKey`: split on `-`, require three parts,
look the third part up in `KEY_DURATIONS`. -/
def extractDurationFromKey (key : String) : Option String :=
  let parts := splitOnDash key.toList
  if parts.length != 3 then none
  else match parts.get? 2 with
    | some dt =>
      if (keyDurationMsV4 (String.mk dt)).isSome then some (String.mk dt)
      else none
    | none => none

/-- part_005 `verify_key` duration-reclassification ladder (`fixedDurationType`),
including its unreachable `1month` branch. -/
def fixDurationType (actualSeconds : Int) : String :=
  if actualSeconds ≥ 604800 then "1week"
  else if actualSeconds ≥ 172800 then "2weeks"
  else if actualSeconds ≥ 86400 then "1day"
  else if actualSeconds ≥ 2592000 then "1month"
  else "5min"

/-- `UPDATE unlock_keys SET used = true, redeemed_by = $1 WHERE id = $2`
(the `routes/api.js` redemption write: no `redeemed_at`, no `used = false`
guard). -/
def markUsedV1 (s : Store) (id : Nat) (uid : String) : Store :=
  ⟨s.keys.map (fun r =>
      if r.id == id then { r with used := true, redeemed_by := some uid } else r),
    s.tokens⟩

/-- `UPDATE unlock_keys SET used = true, redeemed_by = $1, redeemed_at = NOW()
WHERE id = $2` (the part_004 / part_005 redemption write). -/
def markUsedV5 (s : Store) (id : Nat) (uid : String) (now : Int) : Store :=
  ⟨s.keys.map (fun r =>
      if r.id == id then
        { r with used := true, redeemed_by := some uid, redeemed_at := some now }
      else r),
    s.tokens⟩

/-- `INSERT INTO user_tokens ...`. -/
def insertToken (s : Store) (t : TokenRow) : Store :=
  ⟨s.keys, s.tokens ++ [t]⟩

/-- `UPDATE unlock_keys SET duration_type = $1 WHERE id = $2` (the part_005
reclassification write). -/
def updateDurationType (s : Store) (id : Nat) (dt : String) : Store :=
  ⟨s.keys.map (fun r => if r.id == id then { r with duration_type := dt } else r),
    s.tokens⟩

/-- Outcomes of the `verify_key` handlers, one constructor per distinct
HTTP response shape. -/
inductive VerifyResult where
  | missingParams
  | invalidFormat
  | invalidDurationInKey
  | invalidOrExpired
  | alreadyUsed
  | keyExpired
  | success (token : String) (premiumUntil : Int)
  | serverError
deriving Repr, DecidableEq

/-- The `routes/api.js` lookup:
`SELECT id FROM unlock_keys WHERE unlock_key = $1 AND used = false AND
expires_at > NOW()`. -/
def apiV1Select (s : Store) (key : String) (now : Int) : Option Nat :=
  (s.keys.find? (fun r =>
      r.unlock_key == key && r.used == false && decide (r.expires_at > now))).map
    (fun r => r.id)

/-- The tail of the `routes/api.js` `verify_key` handler after its SELECT:
an unconditional `UPDATE ... WHERE id = $2`, then a token insert with a
hard-coded 5-minute expiry.  Split out so that two concurrent requests can
be interleaved between the read and the write. -/
def apiV1RedeemAfterSelect (s : Store) (sel : Option Nat) (uid tok : String)
    (now : Int) : VerifyResult × Store :=
  match sel with
  | none => (VerifyResult.invalidOrExpired, s)
  | some id =>
    let s1 := markUsedV1 s id uid
    let expiresAt := now + 5 * 60 * 1000
    let s2 := insertToken s1 ⟨tok, uid, expiresAt, none⟩
    (VerifyResult.success tok expiresAt, s2)

/-- The whole `routes/api.js` `POST /api/verify_key` handler run without
interleaving.  The final `Nat` counts repository queries executed. -/
def apiV1VerifyKey (s : Store) (uid key : String) (now : Int) (tok : String) :
    VerifyResult × Store × Nat :=
  if uid == "" || key == "" then (VerifyResult.missingParams, s, 0)
  else
    let sel := apiV1Select s key now
    let (r, s1) := apiV1RedeemAfterSelect s sel uid tok now
    (r, s1, if sel.isSome then 3 else 1)

/-- The success tail of the part_005 `verify_key` handler: mark used, compute
the premium expiry from the `KEY_DURATIONS` entry of the stored
`duration_type`, insert the token, then run the duration-reclassification
ladder.  When the ladder disagrees with the stored `duration_type` the
handler updates `duration_type` and then assigns to the `const` binding
`premiumExpiresAt`, raising a TypeError that surfaces as a generic 500. -/
def apiV5Success (s : Store) (keyData : KeyRow) (uid : String) (now : Int)
    (tok : String) (ops : Nat) : VerifyResult × Store × Nat :=
  let durationType := keyData.duration_type
  let s1 := markUsedV5 s keyData.id uid now
  let durationMs := getDurationMs durationType
  let premiumExpiresAt := now + durationMs
  let s2 := insertToken s1 ⟨tok, uid, premiumExpiresAt, some durationType⟩
  if premiumExpiresAt ≤ now then (VerifyResult.serverError, s2, ops + 2)
  else
    let fixedDurationType := fixDurationType keyData.premium_duration_seconds
    if fixedDurationType != durationType then
      let s3 := updateDurationType s2 keyData.id fixedDurationType
      (VerifyResult.serverError, s3, ops + 3)
    else (VerifyResult.success tok premiumExpiresAt, s2, ops + 2)

/-- The part_005 `POST /api/verify_key` handler.  `newId` is the id the
database would assign if the key row is auto-created.  The final `Nat`
counts repository queries executed. -/
def apiV5VerifyKey (s : Store) (uid key : String) (now : Int) (tok : String)
    (newId : Nat) : VerifyResult × Store × Nat :=
  if uid == "" || key == "" then (VerifyResult.missingParams, s, 0)
  else if !validateKeyFormat key then (VerifyResult.invalidFormat, s, 0)
  else
    match findKey s key with
    | none =>
      let keyExpiresAt := now + 30 * 24 * 60 * 60 * 1000
      let newRow : KeyRow :=
        ⟨newId, key, keyExpiresAt, keyExpiresAt, 300, 5, "5min", false, none, none⟩
      apiV5Success ⟨s.keys ++ [newRow], s.tokens⟩ newRow uid now tok 2
    | some r =>
      if r.used then (VerifyResult.alreadyUsed, s, 1)
      else if now > r.key_expires_at then (VerifyResult.keyExpired, s, 1)
      else apiV5Success s r uid now tok 1

/-- The success tail of the part_004 `verify_key` handler: mark used, premium
expiry = `now + keyData.premium_duration_seconds * 1000`, insert the token. -/
def apiV4Success (s : Store) (keyData : KeyRow) (durationType uid : String)
    (now : Int) (tok : String) (ops : Nat) : VerifyResult × Store × Nat :=
  let s1 := markUsedV5 s keyData.id uid now
  let premiumExpiresAt := now + keyData.premium_duration_seconds * 1000
  let s2 := insertToken s1 ⟨tok, uid, premiumExpiresAt, some durationType⟩
  (VerifyResult.success tok premiumExpiresAt, s2, ops + 2)

/-- The part_004 `POST /api/verify_key` handler. -/
def apiV4VerifyKey (s : Store) (uid key : String) (now : Int) (tok : String)
    (newId : Nat) : VerifyResult × Store × Nat :=
  if uid == "" || key == "" then (VerifyResult.missingParams, s, 0)
  else if !validateKeyFormatV4 key then (VerifyResult.invalidFormat, s, 0)
  else
    match extractDurationFromKey key with
    | none => (VerifyResult.invalidDurationInKey, s, 0)
    | some durationType =>
      match findKey s key with
      | none =>
        let durationMs := (keyDurationMsV4 durationType).getD 300000
        let pds := durationMs / 1000
        let keyExpiresAt := now + 30 * 24 * 60 * 60 * 1000
        let newRow : KeyRow :=
          ⟨newId, key, keyExpiresAt, keyExpiresAt, pds, pds / 60, durationType,
            false, none, none⟩
        apiV4Success ⟨s.keys ++ [newRow], s.tokens⟩ newRow durationType uid now tok 2
      | some r =>
        if r.used then (VerifyResult.alreadyUsed, s, 1)
        else if now > r.key_expires_at then (VerifyResult.keyExpired, s, 1)
        else apiV4Success s r durationType uid now tok 1

/-- Outcomes of the `routes/api.js` `check_token` handler. -/
inductive CheckResultV1 where
  | missingToken
  | invalid
  | valid (user : String) (expiresAt : Int)
deriving Repr, DecidableEq

/-- The `routes/api.js` `POST /api/check_token` handler: the SQL filters by
`token = $1 AND expires_at > NOW()`, so an expired stored token falls into
the same 401 response as an unknown token. -/
def apiV1CheckToken (s : Store) (token : String) (now : Int) : CheckResultV1 :=
  if token == "" then CheckResultV1.missingToken
  else
    match s.tokens.find? (fun r => r.token == token && decide (r.expires_at > now)) with
    | none => CheckResultV1.invalid
    | some r => CheckResultV1.valid r.user_id r.expires_at

/-- Outcomes of the part_005 `check_token` handler. -/
inductive CheckResultV5 where
  | missingToken
  | invalid
  | expired (expiredAt : Int)
  | active (user : String) (expiresAt : Int) (remainingMs : Int)
deriving Repr, DecidableEq

/-- The part_005 `POST /api/check_token` handler: fetch the row by token
alone, then compute `remaining = expires_at - now` with server time. -/
def apiV5CheckToken (s : Store) (token : String) (now : Int) : CheckResultV5 :=
  if token == "" then CheckResultV5.missingToken
  else
    match findToken s token with
    | none => CheckResultV5.invalid
    | some r =>
      let remaining := r.expires_at - now
      if remaining > 0 then CheckResultV5.active r.user_id r.expires_at remaining
      else CheckResultV5.expired r.expires_at

/-- The `do ... while (attempts < maxAttempts)` generation loop shared by
`routes/admin.js` and part_003, with `cand i` standing for the i-th output
of `generateUnlockKey()`.  Returns the final values of `attempts` and `key`.
The fuel argument starts at `maxAttempts` and strictly bounds the number of
iterations, exactly as the loop condition does. -/
def generateLoopGo (s : Store) (cand : Nat → String) (maxAttempts : Nat) :
    Nat → Nat → Nat × String
  | 0, i => (i + 1, cand i)
  | fuel + 1, i =>
    let key := cand i
    let attempts := i + 1
    if !keyExists s key then (attempts, key)
    else if attempts < maxAttempts then generateLoopGo s cand maxAttempts fuel (i + 1)
    else (attempts, key)

/-- Run the generation loop from the first attempt. -/
def generateLoop (s : Store) (cand : Nat → String) (maxAttempts : Nat) :
    Nat × String :=
  generateLoopGo s cand maxAttempts maxAttempts 0

/-- Outcomes of the `generate_key` handlers. -/
inductive GenResult where
  | invalidDuration
  | exhausted
  | success (key : String) (expiresAt : Int)
deriving Repr, DecidableEq

/-- The `routes/admin.js` `POST /admin/generate_key` handler: after the
retry loop, `if (attempts >= maxAttempts)` fails with the
could-not-generate-unique-key error; otherwise the key is persisted with
`expires_at = now + durationMinutes minutes`.  The columns absent from this
INSERT take the migration-script defaults
(`key_expires_at = now + 30 days`, `premium_duration_seconds = 300`,
`duration_type = 5min`). -/
def adminV1GenerateKey (s : Store) (durationMinutes : Int) (cand : Nat → String)
    (now : Int) (newId : Nat) : GenResult × Store :=
  if durationMinutes ≤ 0 then (GenResult.invalidDuration, s)
  else
    let r := generateLoop s cand 10
    if r.1 ≥ 10 then (GenResult.exhausted, s)
    else
      let expiresAt := now + durationMinutes * 60 * 1000
      let row : KeyRow :=
        ⟨newId, r.2, expiresAt, now + 30 * 24 * 60 * 60 * 1000, 300, durationMinutes,
          "5min", false, none, none⟩
      (GenResult.success r.2 expiresAt, ⟨s.keys ++ [row], s.tokens⟩)

/-- The part_003 `POST /admin/generate_key` handler: validate
`duration_type` against `KEY_DURATIONS`, run the same retry loop, then
persist with `expires_at = key_expires_at = now + 30 days` and
`premium_duration_seconds` derived from the duration type. -/
def adminV3GenerateKey (s : Store) (durationType : String) (cand : Nat → String)
    (now : Int) (newId : Nat) : GenResult × Store :=
  match keyDurationMsV4 durationType with
  | none => (GenResult.invalidDuration, s)
  | some durationMs =>
    let r := generateLoop s cand 10
    if r.1 ≥ 10 then (GenResult.exhausted, s)
    else
      let pds := durationMs / 1000
      let keyExpiresAt := now + 30 * 24 * 60 * 60 * 1000
      let row : KeyRow :=
        ⟨newId, r.2, keyExpiresAt, keyExpiresAt, pds, pds / 60, durationType,
          false, none, none⟩
      (GenResult.success r.2 keyExpiresAt, ⟨s.keys ++ [row], s.tokens⟩)

/-- Outcomes of the `PUT /admin/keys/:id/toggle` handler. -/
inductive ToggleResult where
  | notFound
  | toggled (id : Nat) (newUsed : Bool)
deriving Repr, DecidableEq

/-- The `routes/admin.js` (and identical part_003)
`PUT /admin/keys/:id/toggle` handler: read `used`, negate it, and write it
back, leaving `redeemed_by` and `redeemed_at` untouched. -/
def adminToggleKey (s : Store) (id : Nat) : ToggleResult × Store :=
  match findKeyById s id with
  | none => (ToggleResult.notFound, s)
  | some r =>
    let newUsed := !r.used
    let s1 : Store :=
      ⟨s.keys.map (fun k => if k.id == id then { k with used := newUsed } else k),
        s.tokens⟩
    (ToggleResult.toggled id newUsed, s1)

/-- Every `KEY_DURATIONS` lookup (with the 5-minute fallback) is positive. -/
theorem getDurationMs_pos (dt : String) : 0 < getDurationMs dt := by
  unfold getDurationMs keyDurationMs
  split <;> simp

/-- If no row carries the key at all, the `routes/api.js` SELECT (which also
filters on `used` and `expires_at`) returns no row either. -/
theorem apiV1Select_none_of_absent (s : Store) (key : String) (now : Int)
    (h : findKey s key = none) : apiV1Select s key now = none := by
  unfold findKey at h
  rw [List.find?_eq_none] at h
  unfold apiV1Select
  have h2 : s.keys.find? (fun r => r.unlock_key == key && r.used == false &&
      decide (r.expires_at > now)) = none := by
    rw [List.find?_eq_none]
    intro r hr hc
    refine h r hr ?_
    simp only [Bool.and_eq_true] at hc
    exact hc.1.1
  rw [h2]
  rfl
example : validateKeyFormat "vsm-ABCDEFGH-Z9Z9" = true := by decide
example : validateKeyFormat "vsm-ABCDEFGH-5min" = false := by decide
example : validateKeyFormat "vsm-abcdefgh-ZZZZ" = false := by decide
example : validateKeyFormatV4 "vsm-ABCDEFG-5min" = true := by decide
example : validateKeyFormatV4 "vsm-ABC-DEFG-5min" = false := by decide
example : extractDurationFromKey "vsm-ABCDEFG-1day" = some "1day" := by decide
example : fixDurationType 1209600 = "1week" := by decide
example : fixDurationType 2592000 = "1week" := by decide
example : fixDurationType 300 = "5min" := by decide

/-! ## Concrete fixtures used by counterexamples and witnesses -/

/-- An unused one-day key in the migrated schema: 86400 premium seconds,
`duration_minutes = 1440`, code validity until t = 86400000. -/
def kLegacyDay : KeyRow :=
  ⟨1, "ABCD-1234", 86400000, 2592000000, 86400, 1440, "1day", false, none, none⟩

/-- A store holding only `kLegacyDay`. -/
def sLegacy : Store := ⟨[kLegacyDay], []⟩

/-- An unused two-weeks key as written by the part_005 generator
(`premium_duration_seconds = 1209600`, `duration_type = 2weeks`). -/
def kTwoWeeks : KeyRow :=
  ⟨1, "vsm-ABCDEFGH-QRST", 2592000000, 2592000000, 1209600, 20160, "2weeks",
    false, none, none⟩

/-- A store holding only `kTwoWeeks`. -/
def sTwoWeeks : Store := ⟨[kTwoWeeks], []⟩

/-- A key that was already redeemed: `used`, `redeemed_by`, `redeemed_at`
all set. -/
def kRedeemed : KeyRow :=
  ⟨3, "vsm-USEDKEY1-AAAA", 2592000000, 2592000000, 300, 5, "5min",
    true, some "alice", some 111⟩

/-- A store holding only `kRedeemed`. -/
def sRedeemed : Store := ⟨[kRedeemed], []⟩

/-- A freshly generated, never-redeemed key. -/
def kFresh : KeyRow :=
  ⟨4, "vsm-FRESHKEY-BBBB", 2592000000, 2592000000, 300, 5, "5min",
    false, none, none⟩

/-- A store holding only `kFresh`. -/
def sFresh : Store := ⟨[kFresh], []⟩

/-- An unused one-day key in the part_004 format (duration suffix embedded
in the key string, stored duration 86400 seconds). -/
def kV4Day : KeyRow :=
  ⟨6, "vsm-DAYKEYZ-1day", 2592000000, 2592000000, 86400, 1440, "1day",
    false, none, none⟩

/-- A store holding only `kV4Day`. -/
def sV4Day : Store := ⟨[kV4Day], []⟩

/-- A store whose only token expired at t = 100. -/
def sExpiredToken : Store := ⟨[], [⟨"tok-expired", "carol", 100, none⟩]⟩

/-- Nine stored keys `K0` .. `K8`, exercising the generation retry loop. -/
def sNineKeys : Store :=
  ⟨[⟨10, "K0", 0, 0, 300, 5, "5min", false, none, none⟩,
    ⟨11, "K1", 0, 0, 300, 5, "5min", false, none, none⟩,
    ⟨12, "K2", 0, 0, 300, 5, "5min", false, none, none⟩,
    ⟨13, "K3", 0, 0, 300, 5, "5min", false, none, none⟩,
    ⟨14, "K4", 0, 0, 300, 5, "5min", false, none, none⟩,
    ⟨15, "K5", 0, 0, 300, 5, "5min", false, none, none⟩,
    ⟨16, "K6", 0, 0, 300, 5, "5min", false, none, none⟩,
    ⟨17, "K7", 0, 0, 300, 5, "5min", false, none, none⟩,
    ⟨18, "K8", 0, 0, 300, 5, "5min", false, none, none⟩], []⟩

/-- A candidate stream whose first nine outputs collide with `sNineKeys`
and whose tenth output is fresh. -/
def candNine : Nat → String
  | 0 => "K0"
  | 1 => "K1"
  | 2 => "K2"
  | 3 => "K3"
  | 4 => "K4"
  | 5 => "K5"
  | 6 => "K6"
  | 7 => "K7"
  | 8 => "K8"
  | _ => "FRESH"

/-! ## Claim C1 -/

/-- Two concurrent `routes/api.js` redemptions of the same code under the
schedule read-A, read-B, write-A, write-B: each request first runs its
SELECT against the same initial store, then each runs its unconditional
UPDATE and token INSERT.  Every individual repository operation is atomic;
only their interleaving is chosen adversarially. -/
def apiV1TwoInterleaved (s : Store) (key uidA uidB tokA tokB : String)
    (now : Int) : (VerifyResult × VerifyResult) × Store :=
  let selA := apiV1Select s key now
  let selB := apiV1Select s key now
  let outA := apiV1RedeemAfterSelect s selA uidA tokA now
  let outB := apiV1RedeemAfterSelect outA.2 selB uidB tokB now
  ((outA.1, outB.1), outB.2)

/-- Claim C1: of any number of concurrent redeem calls naming one code, at
most one observes success, enforced by a conditional update with a
`used = false` guard.  The code has no such guard: its UPDATE filters on
`id` alone, so under the read-read-write-write schedule both concurrent
requests for the single unused code `ABCD-1234` succeed and two token rows
are inserted. -/
theorem redeem_race_two_successes :
    (apiV1TwoInterleaved sLegacy "ABCD-1234" "alice" "bob" "tokA" "tokB" 0).1 =
      (VerifyResult.success "tokA" 300000, VerifyResult.success "tokB" 300000) ∧
    ((apiV1TwoInterleaved sLegacy "ABCD-1234" "alice" "bob" "tokA" "tokB" 0).2).tokens.length
      = 2 := by
  decide

/-! ## Claim C2 -/

/-- Claim C2: a successful redemption issues a token expiring at redemption
time plus the stored `premiumDurationSeconds` of the code, not a fixed
constant.  The `routes/api.js` handler instead hard-codes a five-minute
expiry: redeeming the stored one-day code (`premium_duration_seconds`
86400) at t = 0 yields a token expiring at 300000 ms, not at
86400 * 1000 ms. -/
theorem apiV1_fixed_constant_expiry :
    (apiV1VerifyKey sLegacy "dave" "ABCD-1234" 0 "tokX").1 =
      VerifyResult.success "tokX" 300000 ∧
    kLegacyDay.premium_duration_seconds = 86400 ∧
    (apiV1VerifyKey sLegacy "dave" "ABCD-1234" 0 "tokX").1 ≠
      VerifyResult.success "tokX" (0 + kLegacyDay.premium_duration_seconds * 1000) := by
  decide

/-- Claim C2 (amended): in the part_004 handler the issued token expires at
redemption time plus the stored `premium_duration_seconds` of the redeemed
key, whatever that stored value is. -/
theorem apiV4_expiry_from_stored_duration
    (s : Store) (uid key tok : String) (now : Int) (newId : Nat) (r : KeyRow)
    (dt : String)
    (huid : uid ≠ "") (hkey : key ≠ "")
    (hfmt : validateKeyFormatV4 key = true)
    (hdt : extractDurationFromKey key = some dt)
    (hfind : findKey s key = some r)
    (hused : r.used = false)
    (hexp : now ≤ r.key_expires_at) :
    apiV4VerifyKey s uid key now tok newId =
      (VerifyResult.success tok (now + r.premium_duration_seconds * 1000),
        insertToken (markUsedV5 s r.id uid now)
          ⟨tok, uid, now + r.premium_duration_seconds * 1000, some dt⟩,
        3) := by
  have h1 : (uid == "") = false := beq_eq_false_iff_ne.mpr huid
  have h2 : (key == "") = false := beq_eq_false_iff_ne.mpr hkey
  have h3 : ¬ now > r.key_expires_at := not_lt.mpr hexp
  simp [apiV4VerifyKey, h1, h2, hfmt, hdt, hfind, hused, h3, apiV4Success]

/-- Witness for the amended C2 theorem: redeeming the stored one-day
legacy-format key at t = 0 yields a token expiring at 86400 * 1000 ms. -/
theorem apiV4_expiry_from_stored_duration_witness :
    apiV4VerifyKey sV4Day "dave" "vsm-DAYKEYZ-1day" 0 "tokD" 50 =
      (VerifyResult.success "tokD" (0 + kV4Day.premium_duration_seconds * 1000),
        insertToken (markUsedV5 sV4Day kV4Day.id "dave" 0)
          ⟨"tokD", "dave", 0 + kV4Day.premium_duration_seconds * 1000, some "1day"⟩,
        3) :=
  apiV4_expiry_from_stored_duration sV4Day "dave" "vsm-DAYKEYZ-1day" "tokD" 0 50
    kV4Day "1day" (by decide) (by decide) (by decide) (by decide) (by decide)
    (by decide) (by decide)

/-! ## Claim C3 -/

/-- Claim C3: a well-formed code absent from the repository fails with
NotFound and no token is issued.  The part_005 handler instead auto-creates
the absent code and completes the redemption: on an empty store, redeeming
the well-formed but never-generated code succeeds and a token row is
inserted. -/
theorem apiV5_absent_code_autocreated :
    (apiV5VerifyKey ⟨[], []⟩ "dave" "vsm-NEWCODE1-ZZZZ" 0 "tokZ" 42).1 =
      VerifyResult.success "tokZ" 300000 ∧
    ((apiV5VerifyKey ⟨[], []⟩ "dave" "vsm-NEWCODE1-ZZZZ" 0 "tokZ" 42).2.1).tokens
      = [⟨"tokZ", "dave", 300000, some "5min"⟩] := by
  decide

/-- Claim C3 (amended): for an absent code, the legacy `routes/api.js`
handler fails with its merged invalid-or-expired error and leaves the store
unchanged, while the part_005 handler auto-creates the code row (five-minute
default duration, thirty-day validity), marks it used, and issues a token. -/
theorem absent_code_redemption
    (s : Store) (uid key tok : String) (now : Int) (newId : Nat)
    (huid : uid ≠ "") (hkey : key ≠ "") (habs : findKey s key = none) :
    apiV1VerifyKey s uid key now tok = (VerifyResult.invalidOrExpired, s, 1) ∧
    (validateKeyFormat key = true →
      apiV5VerifyKey s uid key now tok newId =
        (VerifyResult.success tok (now + 300000),
          insertToken
            (markUsedV5
              ⟨s.keys ++ [⟨newId, key, now + 30 * 24 * 60 * 60 * 1000,
                now + 30 * 24 * 60 * 60 * 1000, 300, 5, "5min", false, none, none⟩],
                s.tokens⟩ newId uid now)
            ⟨tok, uid, now + 300000, some "5min"⟩,
          4)) := by
  have h1 : (uid == "") = false := beq_eq_false_iff_ne.mpr huid
  have h2 : (key == "") = false := beq_eq_false_iff_ne.mpr hkey
  have hsel := apiV1Select_none_of_absent s key now habs
  constructor
  · simp [apiV1VerifyKey, h1, h2, hsel, apiV1RedeemAfterSelect]
  · intro hfmt
    have hle : ¬ now + getDurationMs "5min" ≤ now := by
      have := getDurationMs_pos "5min"
      omega
    simp [apiV5VerifyKey, h1, h2, hfmt, habs, apiV5Success, hle,
      getDurationMs, keyDurationMs, fixDurationType]

/-- Witness for the amended C3 theorem at the concrete absent code
`vsm-NEWCODE1-ZZZZ` on the store holding only the fresh key. -/
theorem absent_code_redemption_witness :
    apiV1VerifyKey sFresh "dave" "vsm-NEWCODE1-ZZZZ" 0 "tokW" =
      (VerifyResult.invalidOrExpired, sFresh, 1) ∧
    apiV5VerifyKey sFresh "dave" "vsm-NEWCODE1-ZZZZ" 0 "tokW" 42 =
      (VerifyResult.success "tokW" (0 + 300000),
        insertToken
          (markUsedV5
            ⟨sFresh.keys ++ [⟨42, "vsm-NEWCODE1-ZZZZ", 0 + 30 * 24 * 60 * 60 * 1000,
              0 + 30 * 24 * 60 * 60 * 1000, 300, 5, "5min", false, none, none⟩],
              sFresh.tokens⟩ 42 "dave" 0)
          ⟨"tokW", "dave", 0 + 300000, some "5min"⟩,
        4) :=
  ⟨(absent_code_redemption sFresh "dave" "vsm-NEWCODE1-ZZZZ" "tokW" 0 42
      (by decide) (by decide) (by decide)).1,
    (absent_code_redemption sFresh "dave" "vsm-NEWCODE1-ZZZZ" "tokW" 0 42
      (by decide) (by decide) (by decide)).2 (by decide)⟩

/-! ## Claim C4 -/

/-- Claim C4: `used` becomes true exactly once, never reverts to false, and
only the redemption path sets it.  The admin toggle endpoint refutes this:
toggling the already-redeemed key flips `used` back to false, outside the
redemption state machine. -/
theorem toggle_reverts_used :
    adminToggleKey sRedeemed 3 =
      (ToggleResult.toggled 3 false,
        ⟨[⟨3, "vsm-USEDKEY1-AAAA", 2592000000, 2592000000, 300, 5, "5min",
          false, some "alice", some 111⟩], []⟩) := by
  decide

/-- Claim C4 (amended): besides the redemption path, the admin toggle
endpoint writes `used`, and it does so in either direction: whenever the
row exists it sets `used` to the negation of its current value, leaving the
redemption fields untouched. -/
theorem toggle_flips_used (s : Store) (id : Nat) (r : KeyRow)
    (h : findKeyById s id = some r) :
    adminToggleKey s id =
      (ToggleResult.toggled id (!r.used),
        ⟨s.keys.map (fun k => if k.id == id then { k with used := !r.used } else k),
          s.tokens⟩) := by
  unfold adminToggleKey
  rw [h]

/-- Witness for the amended C4 theorem: toggling the fresh unused key sets
its `used` flag to true. -/
theorem toggle_flips_used_witness :
    adminToggleKey sFresh 4 =
      (ToggleResult.toggled 4 (!kFresh.used),
        ⟨sFresh.keys.map
          (fun k => if k.id == 4 then { k with used := !kFresh.used } else k),
          sFresh.tokens⟩) :=
  toggle_flips_used sFresh 4 kFresh (by decide)

/-! ## Claim C5 -/

/-- Claim C5: in every reachable state, `used = true` implies `redeemed_by`
and `redeemed_at` are set, the three fields changing together atomically.
Refuted: one admin-toggle step from the reachable store holding the fresh
unredeemed key produces a row with `used = true` and both redemption fields
still null. -/
theorem toggle_breaks_redeemed_invariant :
    ∃ r ∈ (adminToggleKey sFresh 4).2.keys,
      r.used = true ∧ r.redeemed_by = none ∧ r.redeemed_at = none := by
  decide

/-- Claim C5 (amended): the part_004 / part_005 redemption write does set
the three fields together in one atomic update — every row it touches comes
out with `used = true`, `redeemed_by` the redeemer and `redeemed_at` the
redemption instant — but the admin toggle endpoint and the legacy
`routes/api.js` update write `used` without the accompanying fields, so the
invariant does not hold in all reachable states. -/
theorem markUsedV5_sets_triple (s : Store) (id : Nat) (uid : String) (now : Int)
    (r : KeyRow) (hr : r ∈ (markUsedV5 s id uid now).keys) (hid : r.id = id) :
    r.used = true ∧ r.redeemed_by = some uid ∧ r.redeemed_at = some now := by
  unfold markUsedV5 at hr
  simp only [List.mem_map] at hr
  obtain ⟨r0, hr0, heq⟩ := hr
  by_cases h : (r0.id == id) = true
  · rw [if_pos h] at heq
    rw [← heq]
    exact ⟨rfl, rfl, rfl⟩
  · rw [if_neg h] at heq
    rw [← heq] at hid
    exact absurd (beq_iff_eq.mpr hid) h

/-- Witness for the amended C5 theorem: the row produced by the redemption
write on the fresh key carries all three fields. -/
theorem markUsedV5_sets_triple_witness :
    (⟨4, "vsm-FRESHKEY-BBBB", 2592000000, 2592000000, 300, 5, "5min",
      true, some "erin", some 777⟩ : KeyRow).used = true ∧
    (⟨4, "vsm-FRESHKEY-BBBB", 2592000000, 2592000000, 300, 5, "5min",
      true, some "erin", some 777⟩ : KeyRow).redeemed_by = some "erin" ∧
    (⟨4, "vsm-FRESHKEY-BBBB", 2592000000, 2592000000, 300, 5, "5min",
      true, some "erin", some 777⟩ : KeyRow).redeemed_at = some 777 :=
  markUsedV5_sets_triple sFresh 4 "erin" 777 _ (by decide) (by decide)

/-! ## Claim C6 -/

/-- Claim C6: every generated code is persisted with a code-validity
deadline of generation time plus a fixed thirty-day window, independent of
the premium duration.  The `routes/admin.js` generator refutes this: it
persists `expires_at = now + durationMinutes`, so a five-minute request
expires at 300000 ms and a 1440-minute request at 86400000 ms — the
deadline tracks the requested duration and neither equals now + 30 days. -/
theorem adminV1_expiry_tracks_duration :
    (adminV1GenerateKey ⟨[], []⟩ 5 (fun _ => "NEWKEY-01") 0 1).1 =
      GenResult.success "NEWKEY-01" 300000 ∧
    (adminV1GenerateKey ⟨[], []⟩ 1440 (fun _ => "NEWKEY-01") 0 1).1 =
      GenResult.success "NEWKEY-01" 86400000 ∧
    (300000 : Int) ≠ 0 + 30 * 24 * 60 * 60 * 1000 := by
  decide

/-- Claim C6 (amended): the part_003 generator does persist the new code
with `expires_at = key_expires_at = now + 30 days`, a value independent of
the requested duration type, which only determines the stored
`premium_duration_seconds`. -/
theorem adminV3_expiry_thirty_days
    (s : Store) (dt : String) (cand : Nat → String) (now : Int) (newId : Nat)
    (dms : Int) (hdt : keyDurationMsV4 dt = some dms)
    (hloop : (generateLoop s cand 10).1 < 10) :
    adminV3GenerateKey s dt cand now newId =
      (GenResult.success (generateLoop s cand 10).2 (now + 30 * 24 * 60 * 60 * 1000),
        ⟨s.keys ++ [⟨newId, (generateLoop s cand 10).2,
          now + 30 * 24 * 60 * 60 * 1000, now + 30 * 24 * 60 * 60 * 1000,
          dms / 1000, dms / 1000 / 60, dt, false, none, none⟩],
          s.tokens⟩) := by
  have h10 : ¬ (generateLoop s cand 10).1 ≥ 10 := by omega
  simp [adminV3GenerateKey, hdt, h10]

/-- Witness for the amended C6 theorem: generating a one-day key at t = 0
on an empty store persists it with both expiry columns at 2592000000 ms. -/
theorem adminV3_expiry_thirty_days_witness :
    adminV3GenerateKey ⟨[], []⟩ "1day" (fun _ => "NEWKEY-02") 0 7 =
      (GenResult.success (generateLoop ⟨[], []⟩ (fun _ => "NEWKEY-02") 10).2
        (0 + 30 * 24 * 60 * 60 * 1000),
        ⟨([] : List KeyRow) ++ [⟨7, (generateLoop ⟨[], []⟩ (fun _ => "NEWKEY-02") 10).2,
          0 + 30 * 24 * 60 * 60 * 1000, 0 + 30 * 24 * 60 * 60 * 1000,
          86400000 / 1000, 86400000 / 1000 / 60, "1day", false, none, none⟩],
          []⟩) :=
  adminV3_expiry_thirty_days ⟨[], []⟩ "1day" (fun _ => "NEWKEY-02") 0 7 86400000
    (by decide) (by decide)

/-! ## Claim C7 -/

/-- Claim C7: check returns NotFound exactly for unknown token strings, so
a known but expired token yields active = false rather than NotFound.  The
`routes/api.js` handler refutes this: its SQL filters by
`expires_at > NOW()`, so the stored token that expired at t = 100, checked
at t = 200, draws the very same invalid response as a token that was never
stored. -/
theorem apiV1_check_merges_expired_and_unknown :
    apiV1CheckToken sExpiredToken "tok-expired" 200 = CheckResultV1.invalid ∧
    apiV1CheckToken sExpiredToken "tok-unknown" 200 = CheckResultV1.invalid ∧
    (findToken sExpiredToken "tok-expired").isSome = true := by
  decide

/-- Claim C7 (amended): the part_005 check handler returns the invalid
response exactly for unknown token strings; every stored token instead
yields the active answer when `expires_at - now` is positive and the
expired answer otherwise, both computed from the stored absolute expiry and
server time. -/
theorem apiV5_check_active_iff_unexpired (s : Store) (token : String) (now : Int)
    (htok : token ≠ "") :
    (findToken s token = none → apiV5CheckToken s token now = CheckResultV5.invalid) ∧
    (∀ r, findToken s token = some r →
      apiV5CheckToken s token now =
        if r.expires_at - now > 0 then
          CheckResultV5.active r.user_id r.expires_at (r.expires_at - now)
        else CheckResultV5.expired r.expires_at) := by
  have h1 : (token == "") = false := beq_eq_false_iff_ne.mpr htok
  constructor
  · intro h
    simp [apiV5CheckToken, h1, h]
  · intro r h
    simp [apiV5CheckToken, h1, h]

/-- Witness for the amended C7 theorem: the stored token that expired at
t = 100, checked at t = 200, yields the expired answer. -/
theorem apiV5_check_active_iff_unexpired_witness :
    apiV5CheckToken sExpiredToken "tok-expired" 200 =
      if (100 : Int) - 200 > 0 then
        CheckResultV5.active "carol" 100 ((100 : Int) - 200)
      else CheckResultV5.expired 100 :=
  (apiV5_check_active_iff_unexpired sExpiredToken "tok-expired" 200 (by decide)).2
    ⟨"tok-expired", "carol", 100, none⟩ (by decide)

/-! ## Claim C8 -/

/-- Claim C8: every malformed code fails with MalformedCode via a pure
format check before any repository access.  The `routes/api.js` handler
refutes this: it has no format validation, so the malformed code below is
looked up in the repository (one query executed) and drawn into the merged
invalid-or-expired response rather than a format error. -/
theorem apiV1_no_format_check_reads_store :
    apiV1VerifyKey sLegacy "dave" "NOT-A-VALID-KEY" 0 "tokQ" =
      (VerifyResult.invalidOrExpired, sLegacy, 1) ∧
    validateKeyFormat "NOT-A-VALID-KEY" = false := by
  decide

/-- Claim C8 (amended): the part_005 handler rejects a malformed code with
its format error before connecting to the database — zero repository
queries, store unchanged — while the legacy `routes/api.js` handler always
runs at least one repository query on the same non-empty input. -/
theorem apiV5_malformed_rejected_before_store (s : Store) (uid key tok : String)
    (now : Int) (newId : Nat) (huid : uid ≠ "") (hkey : key ≠ "")
    (hfmt : validateKeyFormat key = false) :
    apiV5VerifyKey s uid key now tok newId = (VerifyResult.invalidFormat, s, 0) ∧
    1 ≤ (apiV1VerifyKey s uid key now tok).2.2 := by
  have h1 : (uid == "") = false := beq_eq_false_iff_ne.mpr huid
  have h2 : (key == "") = false := beq_eq_false_iff_ne.mpr hkey
  constructor
  · simp [apiV5VerifyKey, h1, h2, hfmt]
  · cases h : apiV1Select s key now <;>
      simp [apiV1VerifyKey, h1, h2, h, apiV1RedeemAfterSelect]

/-- Witness for the amended C8 theorem at the concrete malformed code. -/
theorem apiV5_malformed_rejected_before_store_witness :
    apiV5VerifyKey sLegacy "dave" "NOT-A-VALID-KEY" 0 "tokQ" 9 =
      (VerifyResult.invalidFormat, sLegacy, 0) ∧
    1 ≤ (apiV1VerifyKey sLegacy "dave" "NOT-A-VALID-KEY" 0 "tokQ").2.2 :=
  apiV5_malformed_rejected_before_store sLegacy "dave" "NOT-A-VALID-KEY" "tokQ"
    0 9 (by decide) (by decide) (by decide)

/-! ## Claim C9 -/

/-- Loop analysis: if every candidate from attempt `i + 1` up to attempt 9
collides, the generation loop runs to its final attempt and ends with
`attempts = 10`, whether or not that final candidate is free. -/
theorem generateLoopGo_all_collide (s : Store) (cand : Nat → String) :
    ∀ fuel i, fuel + i = 10 → 1 ≤ fuel →
      (∀ j, i ≤ j → j < 9 → keyExists s (cand j) = true) →
      (generateLoopGo s cand 10 fuel i).1 = 10 := by
  intro fuel
  induction fuel with
  | zero =>
    intro i hsum hge _
    exfalso
    omega
  | succ f ih =>
    intro i hsum _ hcoll
    by_cases hlast : i + 1 = 10
    · unfold generateLoopGo
      by_cases hk : keyExists s (cand i) = true
      · have hnlt : ¬ i + 1 < 10 := by omega
        simp [hk, hnlt]
        omega
      · rw [Bool.not_eq_true] at hk
        simp [hk]
        omega
    · have hi : i < 9 := by omega
      have hk := hcoll i le_rfl hi
      have hlt : i + 1 < 10 := by omega
      unfold generateLoopGo
      simp [hk, hlt]
      exact ih (i + 1) (by omega) (by omega) (fun j hj hj9 => hcoll j (by omega) hj9)

/-- Loop analysis: if candidate `j` is the first free one from position `i`
on (with `j` within the ten attempts), the loop stops at attempt `j + 1`
having picked that candidate. -/
theorem generateLoopGo_first_free (s : Store) (cand : Nat → String) :
    ∀ fuel i j, fuel + i = 10 → i ≤ j → j + 1 ≤ 10 →
      keyExists s (cand j) = false →
      (∀ l, i ≤ l → l < j → keyExists s (cand l) = true) →
      generateLoopGo s cand 10 fuel i = (j + 1, cand j) := by
  intro fuel
  induction fuel with
  | zero =>
    intro i j hsum hij hj10 _ _
    exfalso
    omega
  | succ f ih =>
    intro i j hsum hij hj10 hfree hcoll
    by_cases hij2 : i = j
    · subst hij2
      unfold generateLoopGo
      simp [hfree]
    · have hilt : i < j := by omega
      have hk := hcoll i le_rfl hilt
      have hlt : i + 1 < 10 := by omega
      unfold generateLoopGo
      simp [hk, hlt]
      exact ih (i + 1) j (by omega) (by omega) hj10 hfree
        (fun l hl hlj => hcoll l (by omega) hlj)

/-- Claim C9: generation fails with the exhaustion error only when every
attempt up to the maximum attempt count collided, and succeeds whenever
some attempt within the bound finds a free code.  Refuted by an off-by-one:
against the store of nine keys `K0` .. `K8`, the candidate stream collides
on its first nine attempts and produces the fresh code `FRESH` on the tenth
attempt — an attempt within the bound of ten — yet the handler reports
exhaustion and persists nothing, because the post-loop check
`attempts >= maxAttempts` cannot distinguish a free tenth candidate from a
colliding one. -/
theorem tenth_attempt_discarded :
    adminV1GenerateKey sNineKeys 5 candNine 0 100 = (GenResult.exhausted, sNineKeys) ∧
    keyExists sNineKeys (candNine 9) = false := by
  decide

/-- Claim C9 (amended): generation fails with the exhaustion error exactly
when the first nine attempts all collide (even if the tenth finds a free
code, its success is discarded), and succeeds persisting the first free
candidate whenever one of the first nine attempts finds one. -/
theorem adminV1_generate_success_iff_early_free
    (s : Store) (dm : Int) (cand : Nat → String) (now : Int) (newId : Nat)
    (hdm : 0 < dm) :
    ((∀ j, j < 9 → keyExists s (cand j) = true) →
      adminV1GenerateKey s dm cand now newId = (GenResult.exhausted, s)) ∧
    (∀ j, j < 9 → keyExists s (cand j) = false →
      (∀ l, l < j → keyExists s (cand l) = true) →
      adminV1GenerateKey s dm cand now newId =
        (GenResult.success (cand j) (now + dm * 60 * 1000),
          ⟨s.keys ++ [⟨newId, cand j, now + dm * 60 * 1000,
            now + 30 * 24 * 60 * 60 * 1000, 300, dm, "5min", false, none, none⟩],
            s.tokens⟩)) := by
  have hnle : ¬ dm ≤ 0 := by omega
  constructor
  · intro hcoll
    have h1 := generateLoopGo_all_collide s cand 10 0 (by omega) (by omega)
      (fun j _ hj9 => hcoll j hj9)
    simp [adminV1GenerateKey, generateLoop, hnle, h1]
  · intro j hj hfree hcoll
    have h2 := generateLoopGo_first_free s cand 10 0 j (by omega) (by omega)
      (by omega) hfree (fun l _ hlj => hcoll l hlj)
    have hnge : ¬ ((j + 1, cand j) : Nat × String).1 ≥ 10 := by
      simp
      omega
    simp [adminV1GenerateKey, generateLoop, hnle, h2, hnge]

/-- Witness for the amended C9 theorem: on an empty store the first
candidate is free, so generation succeeds on attempt one and persists it. -/
theorem adminV1_generate_success_iff_early_free_witness :
    adminV1GenerateKey ⟨[], []⟩ 5 (fun _ => "NEWKEY-03") 0 8 =
      (GenResult.success "NEWKEY-03" (0 + 5 * 60 * 1000),
        ⟨([] : List KeyRow) ++ [⟨8, "NEWKEY-03", 0 + 5 * 60 * 1000,
          0 + 30 * 24 * 60 * 60 * 1000, 300, 5, "5min", false, none, none⟩],
          ([] : List TokenRow)⟩) :=
  (adminV1_generate_success_iff_early_free ⟨[], []⟩ 5 (fun _ => "NEWKEY-03") 0 8
    (by decide)).2 0 (by decide) (by decide)
    (fun l hl => absurd hl (Nat.not_lt_zero l))

/-! ## Claim C10 -/

/-- Claim C10: in the part_005 handler, every stored code whose
`premium_duration_seconds` falls into a different bucket of the
reclassification ladder than its stored `duration_type` hits the
assignment to the `const` binding `premiumExpiresAt` on the success path
and throws, so the request ends in the generic 500 response after the key
row was already marked used (with `redeemed_by`, `redeemed_at` and the
reclassified `duration_type` written) and the token row inserted. -/
theorem apiV5_mismatched_duration_burns_key
    (s : Store) (uid key tok : String) (now : Int) (newId : Nat) (r : KeyRow)
    (huid : uid ≠ "") (hkey : key ≠ "")
    (hfmt : validateKeyFormat key = true)
    (hfind : findKey s key = some r)
    (hused : r.used = false)
    (hexp : now ≤ r.key_expires_at)
    (hmis : fixDurationType r.premium_duration_seconds ≠ r.duration_type) :
    apiV5VerifyKey s uid key now tok newId =
      (VerifyResult.serverError,
        updateDurationType
          (insertToken (markUsedV5 s r.id uid now)
            ⟨tok, uid, now + getDurationMs r.duration_type, some r.duration_type⟩)
          r.id (fixDurationType r.premium_duration_seconds),
        4) := by
  have h1 : (uid == "") = false := beq_eq_false_iff_ne.mpr huid
  have h2 : (key == "") = false := beq_eq_false_iff_ne.mpr hkey
  have h3 : ¬ now > r.key_expires_at := not_lt.mpr hexp
  have hle : ¬ now + getDurationMs r.duration_type ≤ now := by
    have := getDurationMs_pos r.duration_type
    omega
  have hne : (fixDurationType r.premium_duration_seconds != r.duration_type) = true :=
    bne_iff_ne.mpr hmis
  simp [apiV5VerifyKey, h1, h2, hfmt, hfind, hused, h3, apiV5Success, hle, hne]

/-- Witness for C10: the stored two-weeks key (1209600 premium seconds,
which the ladder reclassifies as one week) is burned by its own redemption:
generic server error, key marked used, token inserted. -/
theorem apiV5_mismatched_duration_burns_key_witness :
    apiV5VerifyKey sTwoWeeks "dave" "vsm-ABCDEFGH-QRST" 0 "tokY" 9 =
      (VerifyResult.serverError,
        updateDurationType
          (insertToken (markUsedV5 sTwoWeeks 1 "dave" 0)
            ⟨"tokY", "dave", 0 + getDurationMs "2weeks", some "2weeks"⟩)
          1 (fixDurationType 1209600),
        4) :=
  apiV5_mismatched_duration_burns_key sTwoWeeks "dave" "vsm-ABCDEFGH-QRST" "tokY"
    0 9 kTwoWeeks (by decide) (by decide) (by decide) (by decide) (by decide)
    (by decide) (by decide)
